import Mathlib

/-!
Verification of the AutoNews job-pipeline core.

This file shallowly embeds the orchestrator (`processJob` in
`server/routes.ts`), the summarizer adapter (`HuggingFaceNLP.summarize` and
`checkHealth` in `server/services/video.ts`), the video-render adapter
(`VideoService.renderVideo`), and the content fingerprint (`generateHash`).
External I/O (HTTP responses, remote outcomes) is modelled by oracle values
supplied to the embedded functions; stateful code is explicit state passing.
The Job Store (`server/storage.ts`) is not part of the sources and is
modelled from the specification's store contract.
-/

/-- JavaScript regular-expression whitespace class `\s` (ECMAScript
WhiteSpace ∪ LineTerminator), by code point. -/
def isJsWs (c : Char) : Bool :=
  let n := c.toNat
  n == 9 || n == 10 || n == 11 || n == 12 || n == 13 || n == 32 ||
  n == 160 || n == 5760 || (8192 ≤ n && n ≤ 8202) || n == 8232 ||
  n == 8233 || n == 8239 || n == 8287 || n == 12288 || n == 65279

mutual

/-- JS `String.prototype.split(/\s+/)`: accumulating a token (`acc` holds the
current token reversed).  A whitespace character ends the token and the
maximal whitespace run that follows is one separator match. -/
def splitWsAux : List Char → List Char → List (List Char)
  | [], acc => [acc.reverse]
  | c :: rest, acc =>
    if isJsWs c then acc.reverse :: splitWsSkip rest
    else splitWsAux rest (c :: acc)

/-- Inside a separator match: skip the rest of the whitespace run; if the
string ends here the separator was trailing and JS emits a final empty
piece. -/
def splitWsSkip : List Char → List (List Char)
  | [] => [[]]
  | c :: rest =>
    if isJsWs c then splitWsSkip rest
    else splitWsAux rest [c]

end

/-- JS `s.split(/\s+/)` as in `routes.ts` line 281. -/
def jsSplitWs (s : String) : List String :=
  (splitWsAux s.data []).map String.mk

/-- The expression `summaryText.split(/\s+/).length` — the word count persisted with a
Summary (`routes.ts` line 281). -/
def jsWordCount (s : String) : Nat :=
  (jsSplitWs s).length

/-- JavaScript `ToInt32`: reduce an integer to the 32-bit signed range
`[-2^31, 2^31)`.  This is what `hash & hash` (and the `<<` operator)
perform in `generateHash`. -/
def toInt32 (n : Int) : Int :=
  (n + 2147483648) % 4294967296 - 2147483648

/-- One iteration of the `generateHash` loop (`routes.ts` lines 344-348):
`hash = ((hash << 5) - hash) + char; hash = hash & hash`.  `<<` already
reduces its result to int32, and `& hash` reduces the sum again. -/
def hashStep (h : Int) (c : Nat) : Int :=
  toInt32 (toInt32 (h * 32) - h + (c : Int))

/-- The accumulator after the whole loop of `generateHash`, starting from
`hash = 0`.  The input is the string's UTF-16 code units (JS
`charCodeAt`). -/
def hashLoop (units : List Nat) : Int :=
  units.foldl hashStep 0

/-- Function `generateHash` (`routes.ts` lines 341-350): loop, then
`Math.abs(hash).toString(16)`. -/
def generateHash (units : List Nat) : String :=
  String.mk (Nat.toDigits 16 (hashLoop units).natAbs)

/-- UTF-16 code units of a string; exact for strings of BMP characters,
which is the only place the orchestrator feeds the hash. -/
def codeUnits (s : String) : List Nat :=
  s.data.map Char.toNat

/-! ## Summarizer adapter (`HuggingFaceNLP` in `server/services/video.ts`) -/

/-- What the remote summarizer does on one attempt: the fetch resolves with a
non-ok HTTP status, rejects with a client-side timeout (`AbortError`),
rejects with another error, or resolves ok with a JSON body containing an
`error` field, a `summary_text`, or neither. -/
inductive RemoteOutcome
  | httpErr (status : Nat) (body : String)
  | timeout
  | netErr (msg : String)
  | okError (msg : String)
  | okSummary (s : String)
  | okBad
deriving DecidableEq, Repr

/-- Observable actions of `summarize`: a remote call with its request
timeout in ms, or a backoff sleep in ms. -/
inductive SumEv
  | call (timeoutMs : Nat)
  | sleep (ms : Nat)
deriving DecidableEq, Repr

/-- Field `this.maxRetries` in `HuggingFaceNLP`. -/
def maxRetries : Nat := 5

/-- Field `this.initialTimeout` in `HuggingFaceNLP` (ms). -/
def initialTimeout : Nat := 30000

/-- Message of the error thrown on a non-ok response
(`video.ts` line 241). -/
def httpErrMsg (status : Nat) (body : String) : String :=
  "Hugging Face API error: " ++ toString status ++ " - " ++ body.take 200

/-- The retry loop of `summarize` (`video.ts` lines 198-273), driven by the
per-attempt remote outcomes.  `fuel` counts the attempts still allowed
(`maxRetries - attempt + 1`); `lastError` is the `lastError` local.  Inside
the loop every thrown error is caught by the attempt's own `catch`, which
re-throws only on the final attempt; a 504 with attempts left `continue`s
before the throw, so it does not update `lastError`. -/
def summarizeFrom (outs : Nat → RemoteOutcome) :
    Nat → Nat → Option String → Except String String × List SumEv
  | 0, _, lastError =>
    (.error (lastError.getD "Failed to generate summary after retries"), [])
  | fuel + 1, attempt, lastError =>
    let ev := SumEv.call (initialTimeout * attempt)
    match outs attempt with
    | .okSummary s => (.ok s, [ev])
    | .httpErr status body =>
      if status == 504 && attempt < maxRetries then
        let next := summarizeFrom outs fuel (attempt + 1) lastError
        (next.1, ev :: SumEv.sleep (2000 * attempt) :: next.2)
      else
        let msg := httpErrMsg status body
        if attempt == maxRetries then (.error msg, [ev])
        else
          let next := summarizeFrom outs fuel (attempt + 1) (some msg)
          (next.1, ev :: next.2)
    | .timeout =>
      if attempt < maxRetries then
        let next := summarizeFrom outs fuel (attempt + 1) (some "AbortError")
        (next.1, ev :: SumEv.sleep (2000 * attempt) :: next.2)
      else (.error "AbortError", [ev])
    | .netErr msg =>
      if attempt == maxRetries then (.error msg, [ev])
      else
        let next := summarizeFrom outs fuel (attempt + 1) (some msg)
        (next.1, ev :: next.2)
    | .okError msg =>
      let m := "Summarization error: " ++ msg
      if attempt == maxRetries then (.error m, [ev])
      else
        let next := summarizeFrom outs fuel (attempt + 1) (some m)
        (next.1, ev :: next.2)
    | .okBad =>
      let m := "Unexpected response format"
      if attempt == maxRetries then (.error m, [ev])
      else
        let next := summarizeFrom outs fuel (attempt + 1) (some m)
        (next.1, ev :: next.2)

/-- Method `HuggingFaceNLP.summarize` (`video.ts` lines 191-276): fails outright
without a credential, otherwise runs the retry loop from attempt 1. -/
def summarize (apiKeySet : Bool) (outs : Nat → RemoteOutcome) :
    Except String String × List SumEv :=
  if apiKeySet then summarizeFrom outs maxRetries 1 none
  else (.error "HUGGINGFACE_API_KEY not configured", [])

/-- The request timeouts of the remote calls in a trace, in order. -/
def callTimeouts (evs : List SumEv) : List Nat :=
  evs.filterMap fun e =>
    match e with
    | .call t => some t
    | .sleep _ => none

/-- The backoff sleeps in a trace, in order. -/
def sleepsOf (evs : List SumEv) : List Nat :=
  evs.filterMap fun e =>
    match e with
    | .call _ => none
    | .sleep m => some m

/-! ## Health check (`HuggingFaceNLP.checkHealth`, `video.ts` lines 281-332) -/

/-- The adapter-private health-check cache: `lastHealthCheck` (initialised
`true`) and `lastHealthCheckTime` (initialised `0`), in ms. -/
structure HState where
  lastHealthCheck : Bool
  lastHealthCheckTime : Nat
deriving DecidableEq, Repr

/-- The `new HuggingFaceNLP()` field initialisers. -/
def initialHState : HState :=
  { lastHealthCheck := true, lastHealthCheckTime := 0 }

/-- What the remote does when a fresh health check fires: a response with
its `ok` flag, a client-side timeout (`AbortError`), or another error. -/
inductive HealthOutcome
  | resp (ok : Bool)
  | timeout
  | otherErr
deriving DecidableEq, Repr

/-- Result of one `checkHealth()` call: the returned boolean, the cache
afterwards, and whether a remote call was made. -/
structure HCRes where
  result : Bool
  state : HState
  called : Bool
deriving DecidableEq, Repr

/-- Method `HuggingFaceNLP.checkHealth` (`video.ts` lines 281-332).  `now` is
`Date.now()` at the call; `remote` is what the remote does if the cache is
stale.  `now - lastHealthCheckTime < 60000` is rendered as
`now < lastHealthCheckTime + 60000`, which is the same comparison without
truncated subtraction.  On an `AbortError` with a cached `true`, the code
returns the cached value without touching the cache timestamp. -/
def checkHealth (apiKeySet : Bool) (st : HState) (now : Nat)
    (remote : HealthOutcome) : HCRes :=
  if !apiKeySet then { result := false, state := st, called := false }
  else if now < st.lastHealthCheckTime + 60000 then
    { result := st.lastHealthCheck, state := st, called := false }
  else
    match remote with
    | .resp ok =>
      { result := ok
        state := { lastHealthCheck := ok, lastHealthCheckTime := now }
        called := true }
    | .timeout =>
      if st.lastHealthCheck then
        { result := st.lastHealthCheck, state := st, called := true }
      else
        { result := false
          state := { lastHealthCheck := false, lastHealthCheckTime := now }
          called := true }
    | .otherErr =>
      { result := false
        state := { lastHealthCheck := false, lastHealthCheckTime := now }
        called := true }

/-! ## Video-render adapter (`VideoService.renderVideo`, `video.ts` 87-135) -/

/-- The JSON body the render service returns on an ok response.  String
fields that the service may omit (or return empty) are `Option`s; `none`
stands for an absent/undefined field. -/
structure RenderRaw where
  urlMp4 : Option String
  urlSrt : Option String
  urlThumb : String
  width : Nat
  height : Nat
  duration : Nat
  size : Nat
deriving DecidableEq, Repr

/-- HTTP-level outcome of the render call: the fetch rejected, resolved
non-ok with a status and error text, or resolved ok with a JSON body. -/
inductive RenderResp
  | fail (msg : String)
  | notOk (status : Nat) (text : String)
  | okJson (raw : RenderRaw)
deriving DecidableEq, Repr

/-- JS falsiness of an optional string: `undefined`, `null` and `""` are
all falsy (`!result.urlMp4`, `result.urlSrt || null`). -/
def jsFalsyStr : Option String → Bool
  | none => true
  | some s => s == ""

/-- The structured result `renderVideo` returns (`VideoRenderResult`). -/
structure VideoRenderResult where
  urlMp4 : String
  urlSrt : Option String
  urlThumb : String
  width : Nat
  height : Nat
  duration : Nat
  size : Nat
deriving DecidableEq, Repr

/-- Method `VideoService.renderVideo` (`video.ts` lines 87-135) as a function of
the HTTP-level outcome: a rejected fetch or a non-ok response throws; an ok
response whose body lacks a (truthy) `urlMp4` throws
`Video service did not return urlMp4`; otherwise the structured result is
built, with `urlSrt || null` collapsing a falsy subtitle URL to `none`. -/
def renderVideo (resp : RenderResp) : Except String VideoRenderResult :=
  match resp with
  | .fail msg => .error msg
  | .notOk status text =>
    .error ("Video service error: " ++ toString status ++ " - " ++ text)
  | .okJson raw =>
    if jsFalsyStr raw.urlMp4 then .error "Video service did not return urlMp4"
    else
      .ok { urlMp4 := raw.urlMp4.getD ""
            urlSrt := if jsFalsyStr raw.urlSrt then none else raw.urlSrt
            urlThumb := raw.urlThumb
            width := raw.width
            height := raw.height
            duration := raw.duration
            size := raw.size }

/-! ## Job pipeline orchestrator (`processJob`, `server/routes.ts` 246-338)

The Job Store (`server/storage.ts`) is not among the sources; its operations
are modelled from the specification's store contract (§6): `updateStatus`
sets status/error and updates progress only when one is supplied, artifact
creation appends a record.  The model tracks the single job the run is
about, so record `jobId` foreign keys are implicit. -/

inductive JobStatus
  | pending
  | running
  | completed
  | failed
deriving DecidableEq, Repr

structure Job where
  topic : String
  language : String
  targetLength : Nat
  autoPublish : Bool
  status : JobStatus
  progress : Nat
  error : Option String
deriving DecidableEq, Repr

/-- One article from the article-source adapter (`gnewsService.fetchArticles`
result element). -/
structure FetchedArticle where
  url : String
  title : String
  description : String
  image : Option String
  publishedAt : String
deriving DecidableEq, Repr

/-- The `videoService.generateTTS` result. -/
structure TTSResult where
  audioUrl : String
  duration : Nat
  format : String
deriving DecidableEq, Repr

/-- Persisted Article (`storage.createArticle` argument,
`routes.ts` 258-267). -/
structure ArticleRec where
  source : String
  url : String
  title : String
  content : String
  contentHash : String
  mediaUrl : Option String
  publishedAt : String
deriving DecidableEq, Repr

/-- Persisted Summary (`storage.createSummary` argument,
`routes.ts` 278-284); `qualityFlags` is the empty placeholder object. -/
structure SummaryRec where
  text : String
  wordCount : Nat
  language : String
deriving DecidableEq, Repr

/-- Persisted Audio (`storage.createAudio` argument, `routes.ts` 293-300). -/
structure AudioRec where
  url : String
  duration : Nat
  sampleRate : Nat
  format : String
  size : Nat
deriving DecidableEq, Repr

/-- The adapter outcomes one `processJob` run encounters, as oracles:
each is the result the corresponding awaited call settles with.
`renderResp` is the HTTP-level outcome underneath
`videoService.renderVideo`, so the render adapter's own logic stays in the
model. -/
structure Adapters where
  fetchArticles : Except String (List FetchedArticle)
  nlpSummarize : Except String String
  generateTTS : Except String TTSResult
  renderResp : RenderResp
  publishVideo : Except String Unit

/-- Observable actions of one `processJob` run, in program order. -/
inductive Event
  | statusWrite (status : JobStatus) (error : Option String)
      (progress : Option Nat)
  | fetchCall
  | summarizeCall
  | ttsCall
  | renderCall
  | publishCall
  | createArticle
  | createSummary
  | createAudio
  | createVideo
deriving DecidableEq, Repr

/-- The Job Store's rows for one job. -/
structure Store where
  job : Option Job
  articles : List ArticleRec
  summaries : List SummaryRec
  audios : List AudioRec
  videos : List VideoRenderResult
deriving DecidableEq, Repr

/-- Modelled from the spec: Job Store `updateStatus(id, status, error?,
progress?)` (§6) — sets status and error message, updates progress only
when one is supplied.  `storage.ts` is not among the sources. -/
def updateJobStatus (st : Store) (status : JobStatus) (err : Option String)
    (progress : Option Nat) : Store :=
  { st with
    job := st.job.map fun j =>
      { j with
        status := status
        error := err
        progress := progress.getD j.progress } }

/-- The orchestrator's catch block (`routes.ts` 334-337): record the error
message and set status `failed`, leaving progress as it stands. -/
def failJob (st : Store) (evs : List Event) (msg : String) :
    Store × List Event :=
  (updateJobStatus st .failed (some msg) none,
   evs ++ [Event.statusWrite .failed (some msg) none])

/-- Function `processJob` (`routes.ts` 246-338): status `running`/10, fetch (empty
result throws `No articles found`), persist Article, 25, summarize, persist
Summary with the split word count, 50, TTS, persist Audio with defaulted
sample rate and size, 75, render, persist Video, status `completed`/100,
then — still inside the same try — auto-publish when the flag is set.  Any
throw lands in the catch, which writes status `failed`. -/
def processJob (ad : Adapters) (st0 : Store) : Store × List Event :=
  let st1 := updateJobStatus st0 .running none (some 10)
  let evs1 := [Event.statusWrite .running none (some 10)]
  match st1.job with
  | none => failJob st1 evs1 "Job not found"
  | some job =>
    let evs2 := evs1 ++ [Event.fetchCall]
    match ad.fetchArticles with
    | .error m => failJob st1 evs2 m
    | .ok [] => failJob st1 evs2 "No articles found"
    | .ok (a :: _) =>
      let article : ArticleRec :=
        { source := "gnews"
          url := a.url
          title := a.title
          content := a.description
          contentHash := generateHash (codeUnits a.description)
          mediaUrl := a.image
          publishedAt := a.publishedAt }
      let st2 := { st1 with articles := st1.articles ++ [article] }
      let st3 := updateJobStatus st2 .running none (some 25)
      let evs3 := evs2 ++
        [Event.createArticle, Event.statusWrite .running none (some 25),
         Event.summarizeCall]
      match ad.nlpSummarize with
      | .error m => failJob st3 evs3 m
      | .ok summaryText =>
        let summary : SummaryRec :=
          { text := summaryText
            wordCount := jsWordCount summaryText
            language := job.language }
        let st4 := { st3 with summaries := st3.summaries ++ [summary] }
        let st5 := updateJobStatus st4 .running none (some 50)
        let evs5 := evs3 ++
          [Event.createSummary, Event.statusWrite .running none (some 50),
           Event.ttsCall]
        match ad.generateTTS with
        | .error m => failJob st5 evs5 m
        | .ok tts =>
          let audio : AudioRec :=
            { url := tts.audioUrl
              duration := tts.duration
              sampleRate := 44100
              format := tts.format
              size := 0 }
          let st6 := { st5 with audios := st5.audios ++ [audio] }
          let st7 := updateJobStatus st6 .running none (some 75)
          let evs7 := evs5 ++
            [Event.createAudio, Event.statusWrite .running none (some 75),
             Event.renderCall]
          match renderVideo ad.renderResp with
          | .error m => failJob st7 evs7 m
          | .ok vr =>
            let st8 := { st7 with videos := st7.videos ++ [vr] }
            let st9 := updateJobStatus st8 .completed none (some 100)
            let evs9 := evs7 ++
              [Event.createVideo,
               Event.statusWrite .completed none (some 100)]
            if job.autoPublish then
              let evs10 := evs9 ++ [Event.publishCall]
              match ad.publishVideo with
              | .error m => failJob st9 evs10 m
              | .ok _ => (st9, evs10)
            else (st9, evs9)

/-! ## Trace observers -/

/-- The status writes of a run, each with the progress it carried. -/
def statusWrites (evs : List Event) : List (JobStatus × Option Nat) :=
  evs.filterMap fun e =>
    match e with
    | .statusWrite s _ p => some (s, p)
    | _ => none

/-- The job's progress values over time: the initial value, then the value
after each status write (a write without a progress keeps the previous
value, per the store contract). -/
def progressSeqFrom (p : Nat) : List (Option Nat) → List Nat
  | [] => [p]
  | q :: rest => p :: progressSeqFrom (q.getD p) rest

/-- Progress values observed over one run, starting from the job's initial
progress. -/
def progressSeq (init : Nat) (evs : List Event) : List Nat :=
  progressSeqFrom init ((statusWrites evs).map Prod.snd)

/-- A list of naturals is non-decreasing. -/
def nondecr : List Nat → Bool
  | [] => true
  | [_] => true
  | a :: b :: rest => Nat.ble a b && nondecr (b :: rest)

/-- Every progress value a run actually writes is one of the stage
percentages. -/
def allowedProgressWrites (evs : List Event) : Bool :=
  ((statusWrites evs).filterMap Prod.snd).all fun p =>
    [0, 10, 25, 50, 75, 100].contains p

/-- The job's status values over time: the initial status, then the status
after each write. -/
def statusSeq (init : JobStatus) (evs : List Event) : List JobStatus :=
  init :: (statusWrites evs).map Prod.fst

/-- The transitions the spec's state machine allows:
`pending → running → {completed | failed}`, with `running` re-entered at
stage boundaries. -/
def stepOk : JobStatus → JobStatus → Bool
  | .pending, .running => true
  | .running, .running => true
  | .running, .completed => true
  | .running, .failed => true
  | _, _ => false

/-- The transitions the code actually takes: the spec machine plus the
`completed → failed` overwrite the catch performs when the auto-publish
call throws. -/
def stepOkExt : JobStatus → JobStatus → Bool
  | .completed, .failed => true
  | a, b => stepOk a b

/-- Every consecutive pair of a status history satisfies `step`. -/
def chainOk (step : JobStatus → JobStatus → Bool) : List JobStatus → Bool
  | [] => true
  | [_] => true
  | a :: b :: rest => step a b && chainOk step (b :: rest)

/-- The artifact-creation events of a run, in order. -/
def createEvs (evs : List Event) : List Event :=
  evs.filter fun e =>
    match e with
    | .createArticle | .createSummary | .createAudio | .createVideo => true
    | _ => false

/-- Number of article-source calls a run makes. -/
def fetchCallCount (evs : List Event) : Nat :=
  evs.count Event.fetchCall

/-- Whether the run called the publish adapter. -/
def publishCalled (evs : List Event) : Bool :=
  evs.contains Event.publishCall

/-! ## Concrete fixtures -/

/-- A fetched article for concrete runs. -/
def sampleArticle : FetchedArticle :=
  { url := "https://news.example/a"
    title := "Climate summit"
    description := "World leaders met."
    image := some "https://img.example/a.jpg"
    publishedAt := "2026-01-01" }

/-- A complete render-service JSON body. -/
def sampleRaw : RenderRaw :=
  { urlMp4 := some "https://cdn.example/v.mp4"
    urlSrt := none
    urlThumb := "https://cdn.example/t.jpg"
    width := 1920
    height := 1080
    duration := 42
    size := 1000 }

/-- Adapters where every call succeeds. -/
def okAdapters : Adapters :=
  { fetchArticles := .ok [sampleArticle]
    nlpSummarize := .ok "World leaders met to discuss climate."
    generateTTS :=
      .ok { audioUrl := "https://cdn.example/a.mp3", duration := 42,
            format := "mp3" }
    renderResp := .okJson sampleRaw
    publishVideo := .ok () }

/-- A freshly created job, pending at progress 0. -/
def pendingJob (autoPub : Bool) : Job :=
  { topic := "climate"
    language := "en"
    targetLength := 150
    autoPublish := autoPub
    status := .pending
    progress := 0
    error := none }

/-- The store right after job creation: the job row, no artifacts. -/
def initStore (autoPub : Bool) : Store :=
  { job := some (pendingJob autoPub)
    articles := []
    summaries := []
    audios := []
    videos := [] }

/-- All five stages succeed but the auto-publish call throws. -/
def pubFailAdapters : Adapters :=
  { okAdapters with publishVideo := .error "quota exceeded" }

/-- The request timeouts of `k` consecutive attempts starting at attempt
`a`: `a * initialTimeout, (a+1) * initialTimeout, …`. -/
def timeoutsFrom : Nat → Nat → List Nat
  | _, 0 => []
  | a, k + 1 => initialTimeout * a :: timeoutsFrom (a + 1) k

/-- Every `completed` status write carries progress 100. -/
def completedWritesCarry100 (evs : List Event) : Bool :=
  evs.all fun e =>
    match e with
    | .statusWrite .completed _ p => p == some 100
    | _ => true

/-- Attempts 1 and 2 answer HTTP 504 and attempt 3 succeeds. -/
def outs504twice : Nat → RemoteOutcome := fun n =>
  if n ≤ 2 then .httpErr 504 "gateway timeout" else .okSummary "S3"

/-- Attempt 1 answers HTTP 500; attempt 2 succeeds. -/
def outs500then : Nat → RemoteOutcome := fun n =>
  if n == 1 then .httpErr 500 "boom" else .okSummary "S2"

/-- A render response that is HTTP-ok but lacks `urlMp4`. -/
def incompleteRaw : RenderRaw :=
  { urlMp4 := none
    urlSrt := none
    urlThumb := "https://cdn.example/t.jpg"
    width := 1920
    height := 1080
    duration := 42
    size := 1000 }

/-! ## Lemmas about the hash -/

/-- Function `toInt32` only depends on the argument's residue mod `2^32`. -/
theorem toInt32_congr {a b : Int}
    (h : a % 4294967296 = b % 4294967296) : toInt32 a = toInt32 b := by
  unfold toInt32
  omega

/-- Function `toInt32` lands in the signed 32-bit range. -/
theorem toInt32_bounds (n : Int) :
    -2147483648 ≤ toInt32 n ∧ toInt32 n < 2147483648 := by
  unfold toInt32
  omega

/-- Each hash step lands in the signed 32-bit range. -/
theorem hashStep_bounds (h : Int) (c : Nat) :
    -2147483648 ≤ hashStep h c ∧ hashStep h c < 2147483648 :=
  toInt32_bounds _

/-- The inner int32 reduction performed by `<<` is absorbed by the outer
one: the step is congruent to the plain `31 * hash + charCode` update. -/
theorem hashStep_eq_spec (h : Int) (c : Nat) :
    hashStep h c = toInt32 (31 * h + (c : Int)) := by
  unfold hashStep
  apply toInt32_congr
  unfold toInt32
  omega

/-- The accumulator stays in the signed 32-bit range from any in-range
start. -/
theorem hashFold_bounds (u : List Nat) (h : Int)
    (hl : -2147483648 ≤ h) (hu : h < 2147483648) :
    -2147483648 ≤ u.foldl hashStep h ∧ u.foldl hashStep h < 2147483648 := by
  induction u generalizing h with
  | nil => exact ⟨hl, hu⟩
  | cons c rest ih =>
    have hb := hashStep_bounds h c
    simpa using ih (hashStep h c) hb.1 hb.2

/-- The final accumulator is in range for every input. -/
theorem hashLoop_bounds (u : List Nat) :
    -2147483648 ≤ hashLoop u ∧ hashLoop u < 2147483648 :=
  hashFold_bounds u 0 (by omega) (by omega)

/-- C9: `generateHash` is a deterministic pure function of the content's
code units: equal inputs give equal fingerprints; the result is the base-16
representation of the absolute value of the 32-bit signed accumulator whose
per-character update is `((hash << 5) - hash) + charCode` reduced to int32
(equivalently `31*hash + charCode` reduced to int32); the absolute value
lies in `[0, 2^31]`; the empty string hashes to `"0"`. -/
theorem generateHash_claim :
    (∀ u v : List Nat, u = v → generateHash u = generateHash v) ∧
    (∀ h c, hashStep h c = toInt32 (31 * h + (c : Int))) ∧
    (∀ u, (hashLoop u).natAbs ≤ 2 ^ 31) ∧
    (∀ u, generateHash u =
      String.mk (Nat.toDigits 16 (hashLoop u).natAbs)) ∧
    generateHash [] = "0" := by
  refine ⟨fun u v h => by rw [h], hashStep_eq_spec, fun u => ?_,
    fun u => rfl, rfl⟩
  have hb := hashLoop_bounds u
  omega

/-- Witness for C9 at a concrete input. -/
theorem generateHash_claim_witness :
    generateHash [87, 111] = generateHash [87, 111] ∧
    (hashLoop [87, 111]).natAbs ≤ 2 ^ 31 :=
  ⟨generateHash_claim.1 [87, 111] [87, 111] rfl,
   generateHash_claim.2.2.1 [87, 111]⟩

/-! ## Lemmas about the word count -/

mutual

/-- JS `split(/\s+/)` never returns an empty array (token branch). -/
theorem splitWsAux_len : ∀ (l acc : List Char), 1 ≤ (splitWsAux l acc).length
  | [], _ => by simp [splitWsAux]
  | c :: rest, acc => by
    unfold splitWsAux
    split
    · simp
    · exact splitWsAux_len rest (c :: acc)

/-- JS `split(/\s+/)` never returns an empty array (separator branch). -/
theorem splitWsSkip_len : ∀ (l : List Char), 1 ≤ (splitWsSkip l).length
  | [] => by simp [splitWsSkip]
  | c :: rest => by
    unfold splitWsSkip
    split
    · exact splitWsSkip_len rest
    · exact splitWsAux_len rest [c]

end

/-- The JS split word count is positive for every string. -/
theorem jsWordCount_pos (s : String) : 1 ≤ jsWordCount s := by
  unfold jsWordCount jsSplitWs
  simpa using splitWsAux_len s.data []

/-- Any run either leaves the Summary table alone or appends exactly one
record whose word count is the JS split length of its text. -/
theorem processJob_summaries_shape (ad : Adapters) (st0 : Store) :
    (processJob ad st0).1.summaries = st0.summaries ∨
    ∃ s l, (processJob ad st0).1.summaries =
      st0.summaries ++
        [{ text := s, wordCount := jsWordCount s, language := l }] := by
  obtain ⟨f, snl, t, r, p⟩ := ad
  obtain ⟨mj, arts, sums, auds, vids⟩ := st0
  rcases mj with _ | j
  · left; rfl
  rcases f with m | ⟨_ | ⟨a, rest⟩⟩
  · left; rfl
  · left; rfl
  rcases snl with m | s
  · left; rfl
  right
  refine ⟨s, j.language, ?_⟩
  rcases t with m | tr
  · rfl
  rcases r with m | ⟨st, tx⟩ | raw
  · rfl
  · rfl
  by_cases hf : jsFalsyStr raw.urlMp4
  · simp [processJob, failJob, updateJobStatus, renderVideo, hf]
  · by_cases hp : j.autoPublish
    · rcases p with m | u
      · simp [processJob, failJob, updateJobStatus, renderVideo, hf, hp]
      · simp [processJob, failJob, updateJobStatus, renderVideo, hf, hp]
    · simp [processJob, failJob, updateJobStatus, renderVideo, hf, hp]

/-- C10: the word count persisted with every Summary equals the length of
`summaryText.split(/\s+/)`; since that split never yields an empty array,
the recorded word count is at least 1 — the empty string counts 1 and an
all-whitespace string counts 2, never 0. -/
theorem summary_wordCount_claim :
    (∀ s : String, 1 ≤ jsWordCount s) ∧
    jsWordCount "" = 1 ∧
    jsWordCount "   " = 2 ∧
    (∀ ad st0, ∀ r ∈ (processJob ad st0).1.summaries,
      r ∈ st0.summaries ∨
        (r.wordCount = jsWordCount r.text ∧ 1 ≤ r.wordCount)) := by
  refine ⟨jsWordCount_pos, rfl, by decide, ?_⟩
  intro ad st0 r hr
  rcases processJob_summaries_shape ad st0 with h | ⟨s, l, h⟩
  · left; rwa [h] at hr
  · rw [h] at hr
    rcases List.mem_append.mp hr with h1 | h2
    · left; exact h1
    · right
      have hrr : r = { text := s, wordCount := jsWordCount s, language := l } := by
        simpa using h2
      subst hrr
      exact ⟨rfl, jsWordCount_pos s⟩

/-- Witness for C10 at a concrete run and record. -/
theorem summary_wordCount_claim_witness :
    1 ≤ jsWordCount "hello  world " ∧
    (({ text := "World leaders met to discuss climate.", wordCount := 6,
        language := "en" } : SummaryRec) ∈ (initStore false).summaries ∨
      (({ text := "World leaders met to discuss climate.", wordCount := 6,
          language := "en" } : SummaryRec).wordCount =
        jsWordCount "World leaders met to discuss climate." ∧
       1 ≤ ({ text := "World leaders met to discuss climate.",
              wordCount := 6, language := "en" } : SummaryRec).wordCount)) :=
  ⟨summary_wordCount_claim.1 "hello  world ",
   summary_wordCount_claim.2.2.2 okAdapters (initStore false) _ (by decide)⟩

/-! ## Lemmas about the summarizer retry loop -/

theorem callTimeouts_nil : callTimeouts [] = [] := rfl

theorem callTimeouts_call_cons (t : Nat) (l : List SumEv) :
    callTimeouts (SumEv.call t :: l) = t :: callTimeouts l := rfl

theorem callTimeouts_sleep_cons (m : Nat) (l : List SumEv) :
    callTimeouts (SumEv.sleep m :: l) = callTimeouts l := rfl


/-- The `i`-th of those timeouts is `(a + i) * initialTimeout`. -/
theorem timeoutsFrom_get : ∀ k a i, i < k →
    (timeoutsFrom a k)[i]? = some (initialTimeout * (a + i)) := by
  intro k
  induction k with
  | zero => omega
  | succ n ih =>
    intro a i hi
    cases i with
    | zero => simp [timeoutsFrom]
    | succ j =>
      have := ih (a + 1) j (by omega)
      simp only [timeoutsFrom, List.getElem?_cons_succ, this]
      congr 2
      omega

/-- Consecutive attempt timeouts strictly increase. -/
theorem timeoutsFrom_chain : ∀ k a,
    List.Chain' (· < ·) (timeoutsFrom a k) := by
  intro k
  induction k with
  | zero => intro a; simp [timeoutsFrom]
  | succ n ih =>
    intro a
    cases n with
    | zero => simp [timeoutsFrom]
    | succ m =>
      rw [timeoutsFrom, timeoutsFrom]
      refine List.Chain'.cons ?_ ?_
      · unfold initialTimeout; omega
      · have := ih (a + 1)
        rwa [timeoutsFrom] at this

/-- Every run of the retry loop makes some `k ≤ fuel` calls, the `i`-th
with request timeout `(attempt + i) * initialTimeout`. -/
theorem summarizeFrom_timeouts (outs : Nat → RemoteOutcome) :
    ∀ fuel attempt le, ∃ k, k ≤ fuel ∧
      callTimeouts (summarizeFrom outs fuel attempt le).2 =
        timeoutsFrom attempt k := by
  intro fuel
  induction fuel with
  | zero => exact fun attempt le => ⟨0, le_rfl, rfl⟩
  | succ n ih =>
    intro attempt le
    have one : ∀ t : Nat, t = initialTimeout * attempt →
        callTimeouts [SumEv.call t] = timeoutsFrom attempt 1 := by
      intro t ht
      simp [callTimeouts_call_cons, callTimeouts_nil, timeoutsFrom, ht]
    have step : ∀ (l : List SumEv) k, k ≤ n →
        callTimeouts l = timeoutsFrom (attempt + 1) k →
        callTimeouts (SumEv.call (initialTimeout * attempt) :: l) =
          timeoutsFrom attempt (k + 1) := by
      intro l k _ hl
      simp [callTimeouts_call_cons, hl, timeoutsFrom]
    cases houts : outs attempt with
    | okSummary s =>
      refine ⟨1, by omega, ?_⟩
      simp only [summarizeFrom, houts]
      exact one _ rfl
    | httpErr status body =>
      simp only [summarizeFrom, houts]
      split
      · obtain ⟨k, hk, he⟩ := ih (attempt + 1) le
        exact ⟨k + 1, by omega,
          by simpa [callTimeouts_sleep_cons] using step _ k hk he⟩
      · split
        · exact ⟨1, by omega, one _ rfl⟩
        · obtain ⟨k, hk, he⟩ := ih (attempt + 1) (some (httpErrMsg status body))
          exact ⟨k + 1, by omega, step _ k hk he⟩
    | timeout =>
      simp only [summarizeFrom, houts]
      split
      · obtain ⟨k, hk, he⟩ := ih (attempt + 1) (some "AbortError")
        exact ⟨k + 1, by omega,
          by simpa [callTimeouts_sleep_cons] using step _ k hk he⟩
      · exact ⟨1, by omega, one _ rfl⟩
    | netErr msg =>
      simp only [summarizeFrom, houts]
      split
      · exact ⟨1, by omega, one _ rfl⟩
      · obtain ⟨k, hk, he⟩ := ih (attempt + 1) (some msg)
        exact ⟨k + 1, by omega, step _ k hk he⟩
    | okError msg =>
      simp only [summarizeFrom, houts]
      split
      · exact ⟨1, by omega, one _ rfl⟩
      · obtain ⟨k, hk, he⟩ :=
          ih (attempt + 1) (some ("Summarization error: " ++ msg))
        exact ⟨k + 1, by omega, step _ k hk he⟩
    | okBad =>
      simp only [summarizeFrom, houts]
      split
      · exact ⟨1, by omega, one _ rfl⟩
      · obtain ⟨k, hk, he⟩ :=
          ih (attempt + 1) (some "Unexpected response format")
        exact ⟨k + 1, by omega, step _ k hk he⟩

/-- List `timeoutsFrom a k` has `k` entries. -/
theorem timeoutsFrom_length : ∀ k a, (timeoutsFrom a k).length = k := by
  intro k
  induction k with
  | zero => intro a; rfl
  | succ n ih => intro a; simp [timeoutsFrom, ih]


/-- C7: `summarize` makes at most 5 attempts; the `i`-th call of any run
uses request timeout `(1 + i - 1) * 30000` growing linearly and strictly;
after a 504 or a client-side timeout on attempt `n < 5` it sleeps
`2000 * n` ms and retries; in the 504/504/success scenario it returns the
attempt-3 result after exactly 3 calls with strictly increasing timeouts
`30000, 60000, 90000` and sleeps `2000, 4000`. -/
theorem summarize_retry_policy_claim :
    (∀ outs, ∃ k, k ≤ maxRetries ∧
      callTimeouts (summarize true outs).2 = timeoutsFrom 1 k ∧
      (callTimeouts (summarize true outs).2).length ≤ maxRetries ∧
      List.Chain' (· < ·) (callTimeouts (summarize true outs).2)) ∧
    (∀ k a i, i < k →
      (timeoutsFrom a k)[i]? = some (initialTimeout * (a + i))) ∧
    (∀ outs fuel attempt le body,
      outs attempt = .httpErr 504 body → attempt < maxRetries →
      summarizeFrom outs (fuel + 1) attempt le =
        ((summarizeFrom outs fuel (attempt + 1) le).1,
         SumEv.call (initialTimeout * attempt) ::
           SumEv.sleep (2000 * attempt) ::
             (summarizeFrom outs fuel (attempt + 1) le).2)) ∧
    (∀ outs fuel attempt le,
      outs attempt = .timeout → attempt < maxRetries →
      summarizeFrom outs (fuel + 1) attempt le =
        ((summarizeFrom outs fuel (attempt + 1) (some "AbortError")).1,
         SumEv.call (initialTimeout * attempt) ::
           SumEv.sleep (2000 * attempt) ::
             (summarizeFrom outs fuel (attempt + 1) (some "AbortError")).2)) ∧
    summarize true outs504twice =
      (.ok "S3",
       [SumEv.call 30000, SumEv.sleep 2000, SumEv.call 60000,
        SumEv.sleep 4000, SumEv.call 90000]) := by
  refine ⟨?_, timeoutsFrom_get, ?_, ?_, rfl⟩
  · intro outs
    obtain ⟨k, hk, he⟩ := summarizeFrom_timeouts outs maxRetries 1 none
    have hs : (summarize true outs).2 = (summarizeFrom outs maxRetries 1 none).2 := rfl
    rw [hs, he]
    exact ⟨k, hk, rfl, by rw [timeoutsFrom_length]; exact hk,
      timeoutsFrom_chain k 1⟩
  · intro outs fuel attempt le body houts hlt
    simp only [summarizeFrom, houts]
    have hc : (504 == 504 && decide (attempt < maxRetries)) = true := by
      simp [hlt]
    rw [if_pos hc]
  · intro outs fuel attempt le houts hlt
    simp only [summarizeFrom, houts]
    rw [if_pos hlt]

/-- Witness for C7 at concrete inputs. -/
theorem summarize_retry_policy_claim_witness :
    summarizeFrom outs504twice (4 + 1) 1 none =
      ((summarizeFrom outs504twice 4 (1 + 1) none).1,
       SumEv.call (initialTimeout * 1) :: SumEv.sleep (2000 * 1) ::
         (summarizeFrom outs504twice 4 (1 + 1) none).2) :=
  summarize_retry_policy_claim.2.2.1 outs504twice 4 1 none
    "gateway timeout" rfl (by decide)


/-- C2 counterexample: with an HTTP 500 on attempt 1 and success on
attempt 2, `summarize` does not fail on attempt 1 — the loop's catch only
re-throws on the final attempt, so the 500 is retried (without backoff)
and the attempt-2 result is returned after two remote calls. -/
theorem summarize_err_class_counterexample :
    summarize true outs500then =
      (.ok "S2", [SumEv.call 30000, SumEv.call 60000]) ∧
    (summarize true outs500then).1 ≠
      Except.error (httpErrMsg 500 "boom") := by
  refine ⟨rfl, ?_⟩
  have h1 : (summarize true outs500then).1 = Except.ok "S2" := rfl
  rw [h1]
  exact fun h => Except.noConfusion h

/-- C2 corrected: only 504s and client-side timeouts get the backoff sleep,
but every error class is retried until the attempts run out — a non-504
HTTP error (or an error payload / bad format in an ok response) on an
attempt before the fifth is retried immediately with no sleep, becoming the
last observed error; on the fifth attempt any error surfaces. -/
theorem summarize_err_class_amended :
    (∀ outs fuel attempt le status body,
      outs attempt = .httpErr status body →
      ¬(status = 504 ∧ attempt < maxRetries) →
      attempt ≠ maxRetries →
      summarizeFrom outs (fuel + 1) attempt le =
        ((summarizeFrom outs fuel (attempt + 1)
            (some (httpErrMsg status body))).1,
         SumEv.call (initialTimeout * attempt) ::
           (summarizeFrom outs fuel (attempt + 1)
             (some (httpErrMsg status body))).2)) ∧
    (∀ outs fuel attempt le status body,
      outs attempt = .httpErr status body →
      ¬(status = 504 ∧ attempt < maxRetries) →
      attempt = maxRetries →
      summarizeFrom outs (fuel + 1) attempt le =
        (.error (httpErrMsg status body),
         [SumEv.call (initialTimeout * attempt)])) ∧
    (∀ outs fuel attempt le msg,
      outs attempt = .okError msg → attempt ≠ maxRetries →
      summarizeFrom outs (fuel + 1) attempt le =
        ((summarizeFrom outs fuel (attempt + 1)
            (some ("Summarization error: " ++ msg))).1,
         SumEv.call (initialTimeout * attempt) ::
           (summarizeFrom outs fuel (attempt + 1)
             (some ("Summarization error: " ++ msg))).2)) ∧
    (∀ outs fuel attempt le msg,
      outs attempt = .okError msg → attempt = maxRetries →
      summarizeFrom outs (fuel + 1) attempt le =
        (.error ("Summarization error: " ++ msg),
         [SumEv.call (initialTimeout * attempt)])) := by
  refine ⟨?_, ?_, ?_, ?_⟩
  · intro outs fuel attempt le status body houts hn hne
    simp only [summarizeFrom, houts]
    have hc : (status == 504 && decide (attempt < maxRetries)) = false := by
      by_cases h : status = 504
      · subst h
        have hlt : ¬ attempt < maxRetries := fun hlt => hn ⟨rfl, hlt⟩
        simp [hlt]
      · simp [beq_iff_eq, h]
    rw [if_neg (by simp [hc]), if_neg (by simpa using hne)]
  · intro outs fuel attempt le status body houts hn heq
    simp only [summarizeFrom, houts]
    have hc : (status == 504 && decide (attempt < maxRetries)) = false := by
      by_cases h : status = 504
      · subst h
        have hlt : ¬ attempt < maxRetries := fun hlt => hn ⟨rfl, hlt⟩
        simp [hlt]
      · simp [beq_iff_eq, h]
    rw [if_neg (by simp [hc]), if_pos (by simpa using heq)]
  · intro outs fuel attempt le msg houts hne
    simp only [summarizeFrom, houts]
    rw [if_neg (by simpa using hne)]
  · intro outs fuel attempt le msg houts heq
    simp only [summarizeFrom, houts]
    rw [if_pos (by simpa using heq)]

/-- Witness for the corrected C2 at concrete inputs. -/
theorem summarize_err_class_amended_witness :
    summarizeFrom outs500then (4 + 1) 1 none =
      ((summarizeFrom outs500then 4 (1 + 1)
          (some (httpErrMsg 500 "boom"))).1,
       SumEv.call (initialTimeout * 1) ::
         (summarizeFrom outs500then 4 (1 + 1)
           (some (httpErrMsg 500 "boom"))).2) :=
  summarize_err_class_amended.1 outs500then 4 1 none 500 "boom" rfl
    (by decide) (by decide)

/-- C8 counterexample: from the initial cache (`true`, stamped 0), a first
call at t=100000 whose remote check times out returns the cached `true`
*without refreshing the cache timestamp*; a second call one millisecond
later is therefore fresh again — two remote calls in total, and it can
return a different boolean. -/
theorem checkHealth_cache_counterexample :
    (checkHealth true initialHState 100000 .timeout).called = true ∧
    (checkHealth true initialHState 100000 .timeout).result = true ∧
    (checkHealth true (checkHealth true initialHState 100000 .timeout).state
      100001 (.resp false)).called = true ∧
    (checkHealth true (checkHealth true initialHState 100000 .timeout).state
      100001 (.resp false)).result = false := by
  decide

/-- C8 corrected: with an API key configured, if the first call's remote
check is fresh and does **not** end in a client-side timeout (so the cache
timestamp is refreshed), then a second call within 60 seconds of it makes
no remote call and returns the first call's boolean. -/
theorem checkHealth_cache_amended (st : HState) (now1 now2 : Nat)
    (remote1 remote2 : HealthOutcome)
    (h1 : st.lastHealthCheckTime + 60000 ≤ now1)
    (hr1 : remote1 ≠ HealthOutcome.timeout)
    (h2 : now2 < now1 + 60000) :
    (checkHealth true st now1 remote1).called = true ∧
    (checkHealth true (checkHealth true st now1 remote1).state now2
      remote2).called = false ∧
    (checkHealth true (checkHealth true st now1 remote1).state now2
      remote2).result = (checkHealth true st now1 remote1).result := by
  have hfresh : ¬ now1 < st.lastHealthCheckTime + 60000 := by omega
  cases remote1 with
  | resp b => simp [checkHealth, hfresh, h2]
  | timeout => exact absurd rfl hr1
  | otherErr => simp [checkHealth, hfresh, h2]

/-- Witness for the corrected C8 at concrete inputs. -/
theorem checkHealth_cache_amended_witness :
    (checkHealth true initialHState 70000 (.resp true)).called = true ∧
    (checkHealth true
      (checkHealth true initialHState 70000 (.resp true)).state 70001
      (.resp false)).called = false ∧
    (checkHealth true
      (checkHealth true initialHState 70000 (.resp true)).state 70001
      (.resp false)).result =
      (checkHealth true initialHState 70000 (.resp true)).result :=
  checkHealth_cache_amended initialHState 70000 70001 (.resp true)
    (.resp false) (by decide) (by decide) (by decide)


/-- C4: with auto-publish off, when the article fetch returns a non-empty
list, summarize and TTS succeed, the render response carries the primary
video URL, and every store write succeeds, the run ends `completed` at
progress 100, having persisted exactly one Article, one Summary, one
Audio and one Video, in that order, with no publish call. -/
theorem process_success_claim (ad : Adapters) (st0 : Store) (j : Job)
    (a : FetchedArticle) (rest : List FetchedArticle) (s : String)
    (t : TTSResult) (raw : RenderRaw)
    (hj : st0.job = some j)
    (hap : j.autoPublish = false)
    (hf : ad.fetchArticles = .ok (a :: rest))
    (hs : ad.nlpSummarize = .ok s)
    (ht : ad.generateTTS = .ok t)
    (hr : ad.renderResp = .okJson raw)
    (hm : jsFalsyStr raw.urlMp4 = false)
    (ha0 : st0.articles = []) (hs0 : st0.summaries = [])
    (hau0 : st0.audios = []) (hv0 : st0.videos = []) :
    ((processJob ad st0).1.job.map Job.status) = some .completed ∧
    ((processJob ad st0).1.job.map Job.progress) = some 100 ∧
    (processJob ad st0).1.articles.length = 1 ∧
    (processJob ad st0).1.summaries.length = 1 ∧
    (processJob ad st0).1.audios.length = 1 ∧
    (processJob ad st0).1.videos.length = 1 ∧
    createEvs (processJob ad st0).2 =
      [Event.createArticle, Event.createSummary, Event.createAudio,
       Event.createVideo] ∧
    publishCalled (processJob ad st0).2 = false := by
  obtain ⟨f, snl, tt, rr, pp⟩ := ad
  obtain ⟨mj, arts, sums, auds, vids⟩ := st0
  simp only at hj hf hs ht hr ha0 hs0 hau0 hv0
  subst hj hf hs ht hr ha0 hs0 hau0 hv0
  simp [processJob, updateJobStatus, renderVideo, hm, hap, createEvs,
    publishCalled]

/-- Witness for C4: the all-adapters-succeed fixture with auto-publish
off. -/
theorem process_success_claim_witness :
    ((processJob okAdapters (initStore false)).1.job.map Job.status) =
      some .completed ∧
    ((processJob okAdapters (initStore false)).1.job.map Job.progress) =
      some 100 ∧
    (processJob okAdapters (initStore false)).1.articles.length = 1 ∧
    (processJob okAdapters (initStore false)).1.summaries.length = 1 ∧
    (processJob okAdapters (initStore false)).1.audios.length = 1 ∧
    (processJob okAdapters (initStore false)).1.videos.length = 1 ∧
    createEvs (processJob okAdapters (initStore false)).2 =
      [Event.createArticle, Event.createSummary, Event.createAudio,
       Event.createVideo] ∧
    publishCalled (processJob okAdapters (initStore false)).2 = false :=
  process_success_claim okAdapters (initStore false) (pendingJob false)
    sampleArticle [] "World leaders met to discuss climate."
    { audioUrl := "https://cdn.example/a.mp3", duration := 42,
      format := "mp3" }
    sampleRaw rfl rfl rfl rfl rfl rfl (by decide) rfl rfl rfl rfl

/-- C5: when the article-source call returns an empty list the run ends
`failed` with the `No articles found` error recorded, after exactly one
fetch call (no retry), and persists no Article, Summary, Audio or
Video. -/
theorem process_noArticles_claim (ad : Adapters) (st0 : Store) (j : Job)
    (hj : st0.job = some j)
    (hf : ad.fetchArticles = .ok [])
    (ha0 : st0.articles = []) (hs0 : st0.summaries = [])
    (hau0 : st0.audios = []) (hv0 : st0.videos = []) :
    ((processJob ad st0).1.job.map Job.status) = some .failed ∧
    ((processJob ad st0).1.job.map Job.error) =
      some (some "No articles found") ∧
    fetchCallCount (processJob ad st0).2 = 1 ∧
    (processJob ad st0).1.articles = [] ∧
    (processJob ad st0).1.summaries = [] ∧
    (processJob ad st0).1.audios = [] ∧
    (processJob ad st0).1.videos = [] := by
  obtain ⟨f, snl, tt, rr, pp⟩ := ad
  obtain ⟨mj, arts, sums, auds, vids⟩ := st0
  simp only at hj hf ha0 hs0 hau0 hv0
  subst hj hf ha0 hs0 hau0 hv0
  simp [processJob, updateJobStatus, failJob, fetchCallCount]

/-- Witness for C5: the article source answers an empty list. -/
theorem process_noArticles_claim_witness :
    ((processJob { okAdapters with fetchArticles := .ok [] }
        (initStore false)).1.job.map Job.status) = some .failed ∧
    ((processJob { okAdapters with fetchArticles := .ok [] }
        (initStore false)).1.job.map Job.error) =
      some (some "No articles found") ∧
    fetchCallCount (processJob { okAdapters with fetchArticles := .ok [] }
        (initStore false)).2 = 1 ∧
    (processJob { okAdapters with fetchArticles := .ok [] }
        (initStore false)).1.articles = [] ∧
    (processJob { okAdapters with fetchArticles := .ok [] }
        (initStore false)).1.summaries = [] ∧
    (processJob { okAdapters with fetchArticles := .ok [] }
        (initStore false)).1.audios = [] ∧
    (processJob { okAdapters with fetchArticles := .ok [] }
        (initStore false)).1.videos = [] :=
  process_noArticles_claim { okAdapters with fetchArticles := .ok [] }
    (initStore false) (pendingJob false) rfl rfl rfl rfl rfl rfl


/-- C6: an HTTP-ok render response that omits `urlMp4` is a render-stage
failure, not a success: `renderVideo` throws
`Video service did not return urlMp4`, the run ends `failed` with that
error recorded, the already-persisted Article, Summary and Audio remain,
and no Video is persisted. -/
theorem process_renderIncomplete_claim (ad : Adapters) (st0 : Store)
    (j : Job) (a : FetchedArticle) (rest : List FetchedArticle)
    (s : String) (t : TTSResult) (raw : RenderRaw)
    (hj : st0.job = some j)
    (hf : ad.fetchArticles = .ok (a :: rest))
    (hs : ad.nlpSummarize = .ok s)
    (ht : ad.generateTTS = .ok t)
    (hr : ad.renderResp = .okJson raw)
    (hm : jsFalsyStr raw.urlMp4 = true)
    (ha0 : st0.articles = []) (hs0 : st0.summaries = [])
    (hau0 : st0.audios = []) (hv0 : st0.videos = []) :
    renderVideo (.okJson raw) =
      .error "Video service did not return urlMp4" ∧
    ((processJob ad st0).1.job.map Job.status) = some .failed ∧
    ((processJob ad st0).1.job.map Job.error) =
      some (some "Video service did not return urlMp4") ∧
    (processJob ad st0).1.articles.length = 1 ∧
    (processJob ad st0).1.summaries.length = 1 ∧
    (processJob ad st0).1.audios.length = 1 ∧
    (processJob ad st0).1.videos = [] := by
  obtain ⟨f, snl, tt, rr, pp⟩ := ad
  obtain ⟨mj, arts, sums, auds, vids⟩ := st0
  simp only at hj hf hs ht hr ha0 hs0 hau0 hv0
  subst hj hf hs ht hr ha0 hs0 hau0 hv0
  simp [processJob, updateJobStatus, failJob, renderVideo, hm]

/-- Witness for C6: a concrete run whose render response omits
`urlMp4`. -/
theorem process_renderIncomplete_claim_witness :
    renderVideo (.okJson incompleteRaw) =
      .error "Video service did not return urlMp4" ∧
    ((processJob { okAdapters with renderResp := .okJson incompleteRaw }
        (initStore false)).1.job.map Job.status) = some .failed ∧
    ((processJob { okAdapters with renderResp := .okJson incompleteRaw }
        (initStore false)).1.job.map Job.error) =
      some (some "Video service did not return urlMp4") ∧
    (processJob { okAdapters with renderResp := .okJson incompleteRaw }
        (initStore false)).1.articles.length = 1 ∧
    (processJob { okAdapters with renderResp := .okJson incompleteRaw }
        (initStore false)).1.summaries.length = 1 ∧
    (processJob { okAdapters with renderResp := .okJson incompleteRaw }
        (initStore false)).1.audios.length = 1 ∧
    (processJob { okAdapters with renderResp := .okJson incompleteRaw }
        (initStore false)).1.videos = [] :=
  process_renderIncomplete_claim
    { okAdapters with renderResp := .okJson incompleteRaw }
    (initStore false) (pendingJob false) sampleArticle []
    "World leaders met to discuss climate."
    { audioUrl := "https://cdn.example/a.mp3", duration := 42,
      format := "mp3" }
    incompleteRaw rfl rfl rfl rfl rfl rfl rfl rfl rfl rfl

/-- C1 counterexample: all five stages succeed, `autoPublish` is set, and
the publish call throws `quota exceeded`.  The catch overwrites the
already-written terminal `completed` status with `failed`, so the final
persisted status is not `completed`. -/
theorem publish_failure_counterexample :
    ((processJob pubFailAdapters (initStore true)).1.job.map Job.status) =
      some .failed ∧
    ((processJob pubFailAdapters (initStore true)).1.job.map Job.status) ≠
      some .completed ∧
    ((processJob pubFailAdapters (initStore true)).1.job.map Job.error) =
      some (some "quota exceeded") ∧
    statusWrites (processJob pubFailAdapters (initStore true)).2 =
      [(.running, some 10), (.running, some 25), (.running, some 50),
       (.running, some 75), (.completed, some 100), (.failed, none)] := by
  refine ⟨rfl, ?_, rfl, rfl⟩
  intro h
  have h0 : ((processJob pubFailAdapters (initStore true)).1.job.map
      Job.status) = some JobStatus.failed := rfl
  rw [h0] at h
  exact JobStatus.noConfusion (Option.some.inj h)

/-- C1 corrected: when the five stages succeed, the run ends `completed`
at progress 100 if auto-publish is off or the publish call succeeds; but
when the publish call throws, the orchestrator's own catch overwrites the
terminal `completed` status with `failed` (progress stays 100 and the
publish error message is recorded). -/
theorem publish_failure_amended (ad : Adapters) (st0 : Store) (j : Job)
    (a : FetchedArticle) (rest : List FetchedArticle) (s : String)
    (t : TTSResult) (raw : RenderRaw)
    (hj : st0.job = some j)
    (hf : ad.fetchArticles = .ok (a :: rest))
    (hs : ad.nlpSummarize = .ok s)
    (ht : ad.generateTTS = .ok t)
    (hr : ad.renderResp = .okJson raw)
    (hm : jsFalsyStr raw.urlMp4 = false) :
    (j.autoPublish = false →
      ((processJob ad st0).1.job.map Job.status) = some .completed ∧
      ((processJob ad st0).1.job.map Job.progress) = some 100) ∧
    (ad.publishVideo = .ok () →
      ((processJob ad st0).1.job.map Job.status) = some .completed ∧
      ((processJob ad st0).1.job.map Job.progress) = some 100) ∧
    (∀ m, j.autoPublish = true → ad.publishVideo = .error m →
      ((processJob ad st0).1.job.map Job.status) = some .failed ∧
      ((processJob ad st0).1.job.map Job.error) = some (some m) ∧
      ((processJob ad st0).1.job.map Job.progress) = some 100 ∧
      statusWrites (processJob ad st0).2 =
        [(.running, some 10), (.running, some 25), (.running, some 50),
         (.running, some 75), (.completed, some 100), (.failed, none)]) := by
  obtain ⟨f, snl, tt, rr, pp⟩ := ad
  obtain ⟨mj, arts, sums, auds, vids⟩ := st0
  simp only at hj hf hs ht hr
  subst hj hf hs ht hr
  refine ⟨?_, ?_, ?_⟩
  · intro hap
    simp [processJob, updateJobStatus, renderVideo, hm, hap]
  · intro hpub
    simp only at hpub
    subst hpub
    by_cases hap : j.autoPublish <;>
      simp [processJob, updateJobStatus, renderVideo, hm, hap]
  · intro m hap hpub
    simp only at hpub
    subst hpub
    simp [processJob, updateJobStatus, failJob, renderVideo, hm, hap,
      statusWrites]

/-- Witness for the corrected C1: the publish-failure fixture. -/
theorem publish_failure_amended_witness :
    ((processJob pubFailAdapters (initStore true)).1.job.map Job.status) =
      some .failed ∧
    ((processJob pubFailAdapters (initStore true)).1.job.map Job.error) =
      some (some "quota exceeded") ∧
    ((processJob pubFailAdapters (initStore true)).1.job.map Job.progress) =
      some 100 ∧
    statusWrites (processJob pubFailAdapters (initStore true)).2 =
      [(.running, some 10), (.running, some 25), (.running, some 50),
       (.running, some 75), (.completed, some 100), (.failed, none)] :=
  (publish_failure_amended pubFailAdapters (initStore true)
    (pendingJob true) sampleArticle []
    "World leaders met to discuss climate."
    { audioUrl := "https://cdn.example/a.mp3", duration := 42,
      format := "mp3" }
    sampleRaw rfl rfl rfl rfl rfl (by decide)).2.2
    "quota exceeded" rfl rfl

/-- C3 counterexample: in the publish-failure run the persisted status
history is `pending, running×4, completed, failed` — the transition
`completed → failed` falls outside the claimed
`pending → running → {completed | failed}` machine. -/
theorem progress_status_counterexample :
    chainOk stepOk
      (statusSeq .pending
        (processJob pubFailAdapters (initStore true)).2) = false ∧
    statusSeq .pending (processJob pubFailAdapters (initStore true)).2 =
      [.pending, .running, .running, .running, .running, .completed,
       .failed] := ⟨rfl, rfl⟩

/-- C3 corrected: for every job started pending at progress 0, the progress
values over the run are non-decreasing, every written progress is a stage
percentage, `running`/10 is the very first write (before any stage), and
every `completed` write carries progress 100; the status history follows
`pending → running → {completed | failed}` extended with the single extra
transition `completed → failed`, which occurs only when auto-publish is on
and the publish call fails — otherwise the claimed machine holds as
stated. -/
theorem progress_status_amended (ad : Adapters) (st0 : Store) (j : Job)
    (hj : st0.job = some j) (hp0 : j.progress = 0)
    (hs0 : j.status = .pending) :
    nondecr (progressSeq j.progress (processJob ad st0).2) = true ∧
    allowedProgressWrites (processJob ad st0).2 = true ∧
    (processJob ad st0).2.head? =
      some (Event.statusWrite .running none (some 10)) ∧
    completedWritesCarry100 (processJob ad st0).2 = true ∧
    chainOk stepOkExt (statusSeq j.status (processJob ad st0).2) = true ∧
    (chainOk stepOk (statusSeq j.status (processJob ad st0).2) = true ∨
      (j.autoPublish = true ∧ ∃ m, ad.publishVideo = .error m)) := by
  obtain ⟨f, snl, tt, rr, pp⟩ := ad
  obtain ⟨mj, arts, sums, auds, vids⟩ := st0
  obtain ⟨topic, lang, tl, ap, jst, jpr, jerr⟩ := j
  simp only at hj hp0 hs0
  subst hj hp0 hs0
  rcases f with m | ⟨_ | ⟨a, rest⟩⟩
  · exact ⟨rfl, rfl, rfl, rfl, rfl, Or.inl rfl⟩
  · exact ⟨rfl, rfl, rfl, rfl, rfl, Or.inl rfl⟩
  rcases snl with m | s
  · exact ⟨rfl, rfl, rfl, rfl, rfl, Or.inl rfl⟩
  rcases tt with m | t
  · exact ⟨rfl, rfl, rfl, rfl, rfl, Or.inl rfl⟩
  rcases hrv : renderVideo rr with m | vr
  · refine ⟨?_, ?_, ?_, ?_, ?_, Or.inl ?_⟩ <;>
      simp [processJob, updateJobStatus, failJob, hrv, nondecr,
        progressSeq, progressSeqFrom, statusWrites, allowedProgressWrites,
        statusSeq, chainOk, stepOk, stepOkExt, completedWritesCarry100]
  rcases ap with _ | _
  · refine ⟨?_, ?_, ?_, ?_, ?_, Or.inl ?_⟩ <;>
      simp [processJob, updateJobStatus, failJob, hrv, nondecr,
        progressSeq, progressSeqFrom, statusWrites, allowedProgressWrites,
        statusSeq, chainOk, stepOk, stepOkExt, completedWritesCarry100]
  rcases pp with m | u
  · refine ⟨?_, ?_, ?_, ?_, ?_, Or.inr ⟨rfl, m, ?_⟩⟩ <;>
      simp [processJob, updateJobStatus, failJob, hrv, nondecr,
        progressSeq, progressSeqFrom, statusWrites, allowedProgressWrites,
        statusSeq, chainOk, stepOk, stepOkExt, completedWritesCarry100]
  · refine ⟨?_, ?_, ?_, ?_, ?_, Or.inl ?_⟩ <;>
      simp [processJob, updateJobStatus, failJob, hrv, nondecr,
        progressSeq, progressSeqFrom, statusWrites, allowedProgressWrites,
        statusSeq, chainOk, stepOk, stepOkExt, completedWritesCarry100]

/-- Witness for the corrected C3: the publish-failure fixture. -/
theorem progress_status_amended_witness :
    nondecr (progressSeq (pendingJob true).progress
      (processJob pubFailAdapters (initStore true)).2) = true ∧
    allowedProgressWrites
      (processJob pubFailAdapters (initStore true)).2 = true ∧
    (processJob pubFailAdapters (initStore true)).2.head? =
      some (Event.statusWrite .running none (some 10)) ∧
    completedWritesCarry100
      (processJob pubFailAdapters (initStore true)).2 = true ∧
    chainOk stepOkExt (statusSeq (pendingJob true).status
      (processJob pubFailAdapters (initStore true)).2) = true ∧
    (chainOk stepOk (statusSeq (pendingJob true).status
        (processJob pubFailAdapters (initStore true)).2) = true ∨
      ((pendingJob true).autoPublish = true ∧
        ∃ m, pubFailAdapters.publishVideo = .error m)) :=
  progress_status_amended pubFailAdapters (initStore true)
    (pendingJob true) rfl rfl rfl
